import Mathlib

/-
Verification of the email-sending client of the zero2prod repository
(src/email_client.rs) against its natural-language specification.

The client is embedded shallowly: the `EmailClient` struct, its constructor
`EmailClient.new` and its operation `send_email` are translated into pure
Lean definitions.  The network is modelled by an explicit `ProviderBehavior`
value describing how the provider reacts to the single outbound request, and
`send_email` returns a `SendOutcome` recording the requests issued, the log
lines printed, the result, and the client state after the call.
-/

namespace Zero2Prod

/-- Modelled from the spec: `SubscriberEmail` validity (the `domain` module is
not under src/).  The spec requires a syntactically valid email address; we
model this as: exactly one at-sign, with a nonempty local part before it and a
nonempty domain after it, and no whitespace. -/
def isValidEmail (s : String) : Bool :=
  let cs := s.toList
  (cs.countP (fun c => c == '@') == 1) &&
  (!(cs.takeWhile (fun c => c != '@')).isEmpty) &&
  (!((cs.dropWhile (fun c => c != '@')).drop 1).isEmpty) &&
  (cs.all (fun c => !c.isWhitespace))

/-- Modelled from the spec: the validated email value type `SubscriberEmail`
(the `domain` module is not under src/).  Construction fails unless the input
is a syntactically valid email address; every live instance is valid. -/
structure SubscriberEmail where
  address : String
  valid : isValidEmail address = true

instance : DecidableEq SubscriberEmail := fun a b =>
  if h : a.address = b.address then
    isTrue (by cases a; cases b; simp only at h; subst h; rfl)
  else
    isFalse (fun hh => h (congrArg SubscriberEmail.address hh))

/-- Smart constructor of `SubscriberEmail`: returns a value only when the
input passes validation (parse, do not validate later). -/
def SubscriberEmail.parse (s : String) : Option SubscriberEmail :=
  if h : isValidEmail s = true then some ⟨s, h⟩ else none

/-- The `AsRef` view of a `SubscriberEmail`: its underlying string. -/
def SubscriberEmail.as_ref (e : SubscriberEmail) : String := e.address

/-- Modelled from the spec: the opaque secret-holder type (`secrecy` crate,
not under src/).  It wraps the credential; the raw value is reachable only
through `expose_secret`. -/
structure SecretString where
  secret : String
  deriving DecidableEq, Repr

/-- The single explicit accessor revealing the raw credential. -/
def SecretString.expose_secret (s : SecretString) : String := s.secret

/-- Modelled from the spec: the default (Debug) formatting of the secret
holder, which redacts the value and never reveals it. -/
def SecretString.debugFmt (_ : SecretString) : String :=
  "SecretBox<str>([REDACTED])"

/-- The reusable HTTP client handle, configured with a fixed request timeout
(milliseconds). -/
structure HttpClient where
  timeoutMs : Nat
  deriving DecidableEq, Repr

/-- Modelled from the spec: building the HTTP client
(`Client::builder().timeout(t).build()`) can fail for environmental reasons
(client-setup failure); `envOk` stands for that environment condition. -/
inductive BuildOutcome where
  | ok (c : HttpClient)
  | failure
  deriving DecidableEq, Repr

/-- The `reqwest` client builder: succeeds with a client carrying the
configured timeout exactly when the environment allows client setup. -/
def clientBuild (timeoutMs : Nat) (envOk : Bool) : BuildOutcome :=
  if envOk then .ok ⟨timeoutMs⟩ else .failure

/-- The `EmailClient` struct of src/email_client.rs: the HTTP client handle,
the provider base URL kept as an unparsed string, the sender address and the
authorization credential. -/
structure EmailClient where
  http_client : HttpClient
  base_url : String
  sender : SubscriberEmail
  authorization_token : SecretString
  deriving DecidableEq

/-- Outcome of `EmailClient::new`: the code unwraps the client build, so a
build failure is a panic (fatal at startup), never an error value. -/
inductive NewOutcome where
  | ok (c : EmailClient)
  | panic
  deriving DecidableEq

/-- `EmailClient::new`: builds the HTTP client with the given timeout and
stores the remaining configuration unchanged; the base URL string is stored
without being parsed or checked. -/
def EmailClient.new (base_url : String) (sender : SubscriberEmail)
    (authorization_token : SecretString) (timeoutMs : Nat) (envOk : Bool) :
    NewOutcome :=
  match clientBuild timeoutMs envOk with
  | .ok http_client => .ok ⟨http_client, base_url, sender, authorization_token⟩
  | .failure => .panic

/-- A parsed URL: a scheme and the remainder after "://". -/
structure Url where
  scheme : String
  rest : String
  deriving DecidableEq, Repr

/-- Splits a character list at the first occurrence of "://". -/
def splitSchemeSep : List Char → Option (List Char × List Char)
  | [] => none
  | ':' :: '/' :: '/' :: rest => some ([], rest)
  | c :: rest =>
    match splitSchemeSep rest with
    | some (a, b) => some (c :: a, b)
    | none => none

/-- Modelled from the spec: URL parsing performed by `self.base_url.parse()`
(the `url` crate, not under src/).  A base URL parses when it has a nonempty
alphabetic scheme followed by "://" and a nonempty remainder. -/
def parseUrl (s : String) : Option Url :=
  match splitSchemeSep s.toList with
  | some (schemeChars, restChars) =>
    if !schemeChars.isEmpty && schemeChars.all Char.isAlpha
        && !restChars.isEmpty then
      some ⟨String.mk schemeChars, String.mk restChars⟩
    else none
  | none => none

/-- HTTP request methods. -/
inductive Method where
  | POST
  | GET
  | PUT
  | DELETE
  deriving DecidableEq, Repr

/-- Modelled from the spec: the `resend_rs` email-send request payload
(`CreateEmailBaseOptions`, not under src/): from, to, subject, and the two
optional content representations. -/
structure CreateEmailBaseOptions where
  «from» : String
  «to» : List String
  subject : String
  html : Option String
  text : Option String
  deriving DecidableEq, Repr

/-- `CreateEmailBaseOptions::new(from, to, subject)`: both contents absent. -/
def CreateEmailBaseOptions.new («from» : String) («to» : List String)
    (subject : String) : CreateEmailBaseOptions :=
  ⟨«from», «to», subject, none, none⟩

/-- `with_text`: attaches the plain-text content. -/
def CreateEmailBaseOptions.with_text (o : CreateEmailBaseOptions)
    (t : String) : CreateEmailBaseOptions :=
  { o with text := some t }

/-- `with_html`: attaches the HTML content. -/
def CreateEmailBaseOptions.with_html (o : CreateEmailBaseOptions)
    (h : String) : CreateEmailBaseOptions :=
  { o with html := some h }

/-- An outbound HTTP request as built by the send operation: the method, the
parsed base URL it is directed at, the endpoint path under it, the headers,
and the JSON email payload. -/
structure Request where
  method : Method
  baseUrl : Url
  path : String
  headers : List (String × String)
  body : CreateEmailBaseOptions
  deriving DecidableEq, Repr

/-- The value of the Authorization header of a request, when present. -/
def Request.authValue (r : Request) : Option String :=
  r.headers.lookup "Authorization"

/-- The request with its Authorization header removed (used to state what a
request reveals besides the credential). -/
def Request.stripAuth (r : Request) : Request :=
  { r with headers := r.headers.filter (fun p => p.fst != "Authorization") }

/-- The scheme of the URL a request is directed at. -/
def Request.scheme (r : Request) : String := r.baseUrl.scheme

/-- The body of the provider response: a well-formed acknowledgment payload
carrying a message identifier, an error-diagnostic payload, or a payload the
client cannot decode. -/
inductive ResponseBody where
  | ack (id : String)
  | errorDetail (msg : String)
  | malformed (raw : String)
  deriving DecidableEq, Repr

/-- An HTTP response from the provider: a status code and a body. -/
structure HttpResponse where
  status : Nat
  body : ResponseBody
  deriving DecidableEq, Repr

/-- Modelled from the spec: how the provider end of the wire behaves for the
one outbound call of an invocation — either the transport fails outright, or
the provider answers with `resp` after `delayMs` milliseconds. -/
structure ProviderBehavior where
  transportFail : Bool
  transportMsg : String
  delayMs : Nat
  resp : HttpResponse
  deriving DecidableEq, Repr

/-- Causes distinguishing transport-class failures: the configured timeout
elapsing, or a DNS/connect/TLS/IO failure. -/
inductive TransportCause where
  | timeout
  | connection (detail : String)
  deriving DecidableEq, Repr

/-- The error taxonomy of a send: the stored base URL failing to parse, a
transport-class failure (timeout or connection), a success response whose
payload cannot be decoded, or a provider-reported error status with its
diagnostic detail. -/
inductive SendError where
  | urlParse (msg : String)
  | transport (cause : TransportCause)
  | decode (body : ResponseBody)
  | provider (status : Nat) (detail : ResponseBody)
  deriving DecidableEq, Repr

instance {ε α : Type} [DecidableEq ε] [DecidableEq α] :
    DecidableEq (Except ε α) := fun a b =>
  match a, b with
  | .ok x, .ok y =>
    if h : x = y then isTrue (by rw [h]) else
      isFalse (fun hh => h (by cases hh; rfl))
  | .error x, .error y =>
    if h : x = y then isTrue (by rw [h]) else
      isFalse (fun hh => h (by cases hh; rfl))
  | .ok _, .error _ => isFalse (fun hh => Except.noConfusion hh)
  | .error _, .ok _ => isFalse (fun hh => Except.noConfusion hh)

/-- Everything observable about one `send_email` invocation: the outbound
requests issued, the log lines printed, the returned result, and the client
state after the call. -/
structure SendOutcome where
  requests : List Request
  logs : List String
  result : Except SendError Unit
  finalClient : EmailClient

/-- The informational line printed on success
(`println!("{:?}", _email)` on the provider acknowledgment). -/
def ackDebugLine (id : String) : String :=
  "CreateEmailResponse \x7b id: \"" ++ id ++ "\" \x7d"

/-- The single email-send request built by `send_email`: a POST to the
"/emails" endpoint under the configured base URL, with the bearer credential
and JSON content type, carrying the payload built by
`CreateEmailBaseOptions::new(from, to, subject).with_text(..).with_html(..)`. -/
def buildRequest (c : EmailClient) (u : Url) (recipient : SubscriberEmail)
    (subject html_content text_content : String) : Request :=
  { method := .POST
  , baseUrl := u
  , path := "/emails"
  , headers :=
      [ ("Authorization", "Bearer " ++ c.authorization_token.expose_secret)
      , ("Content-Type", "application/json") ]
  , body :=
      ((CreateEmailBaseOptions.new c.sender.as_ref [recipient.as_ref]
          subject).with_text text_content).with_html html_content }

/-- `EmailClient::send_email`: parses the stored base URL (returning the
"failed to parse URL" error before any network activity when it is
malformed), builds the single email-send request, issues it once, and maps
the provider behavior to the result: transport failure and timeout surface as
transport-class errors, a non-2xx status surfaces as a provider error
carrying the returned diagnostic, a 2xx status with a decodable
acknowledgment prints the informational line and returns success, discarding
the message identifier.  The client itself is left unchanged. -/
def send_email (c : EmailClient) (recipient : SubscriberEmail)
    (subject html_content text_content : String)
    (provider : ProviderBehavior) : SendOutcome :=
  match parseUrl c.base_url with
  | none => ⟨[], [], .error (.urlParse "failed to parse URL"), c⟩
  | some u =>
    let req := buildRequest c u recipient subject html_content text_content
    if provider.transportFail then
      ⟨[req], [], .error (.transport (.connection provider.transportMsg)), c⟩
    else if c.http_client.timeoutMs < provider.delayMs then
      ⟨[req], [], .error (.transport .timeout), c⟩
    else if 200 ≤ provider.resp.status && provider.resp.status < 300 then
      match provider.resp.body with
      | .ack id => ⟨[req], [ackDebugLine id], .ok (), c⟩
      | b => ⟨[req], [], .error (.decode b), c⟩
    else
      ⟨[req], [], .error (.provider provider.resp.status provider.resp.body), c⟩

end Zero2Prod

namespace Zero2Prod

/-- A concrete validated sender address, used as a sample configuration. -/
def exSender : SubscriberEmail := ⟨"sender@example.com", by decide⟩

/-- A concrete validated recipient address. -/
def exRecipient : SubscriberEmail := ⟨"user@example.com", by decide⟩

/-- A concrete authorization credential. -/
def exToken : SecretString := ⟨"re_secret123"⟩

/-- A provider that answers immediately with HTTP 200 and a well-formed
acknowledgment payload. -/
def exProviderOk : ProviderBehavior :=
  { transportFail := false, transportMsg := "", delayMs := 0
  , resp := { status := 200, body := .ack "b1946ac9" } }

/-- A provider that answers immediately with HTTP 500 and a diagnostic. -/
def exProvider500 : ProviderBehavior :=
  { transportFail := false, transportMsg := "", delayMs := 0
  , resp := { status := 500, body := .errorDetail "internal error" } }

/-- A provider that would answer HTTP 200 with a well-formed acknowledgment,
but only after a three-minute delay. -/
def exProviderSlow : ProviderBehavior :=
  { transportFail := false, transportMsg := "", delayMs := 180000
  , resp := { status := 200, body := .ack "b1946ac9" } }

/-- A client configured against a local stand-in server over plain HTTP,
with a 200 ms timeout (the configuration of the test suite). -/
def exHttpClient : EmailClient :=
  { http_client := ⟨200⟩, base_url := "http://localhost:8080"
  , sender := exSender, authorization_token := exToken }

/-- A client whose stored base URL string does not parse as a URL. -/
def exBadClient : EmailClient :=
  { http_client := ⟨200⟩, base_url := "not a url"
  , sender := exSender, authorization_token := exToken }

/-- The provider-dependent part of a send outcome, once the single request is
on the wire: the log lines printed and the result returned.  It does not
depend on the authorization credential. -/
def responseOutcome (timeoutMs : Nat) (p : ProviderBehavior) :
    List String × Except SendError Unit :=
  if p.transportFail then
    ([], .error (.transport (.connection p.transportMsg)))
  else if timeoutMs < p.delayMs then
    ([], .error (.transport .timeout))
  else if 200 ≤ p.resp.status && p.resp.status < 300 then
    match p.resp.body with
    | .ack id => ([ackDebugLine id], .ok ())
    | b => ([], .error (.decode b))
  else
    ([], .error (.provider p.resp.status p.resp.body))

/-- When the stored base URL does not parse, `send_email` issues nothing,
logs nothing and returns the URL-parse error. -/
theorem send_email_of_parse_none (c : EmailClient) (r : SubscriberEmail)
    (subj hc tc : String) (p : ProviderBehavior)
    (hu : parseUrl c.base_url = none) :
    send_email c r subj hc tc p =
      ⟨[], [], .error (.urlParse "failed to parse URL"), c⟩ := by
  unfold send_email
  rw [hu]

/-- When the stored base URL parses, `send_email` issues exactly the built
request and the rest of the outcome is `responseOutcome` of the timeout and
the provider behavior. -/
theorem send_email_of_parse (c : EmailClient) (r : SubscriberEmail)
    (subj hc tc : String) (p : ProviderBehavior) (u : Url)
    (hu : parseUrl c.base_url = some u) :
    send_email c r subj hc tc p =
      ⟨[buildRequest c u r subj hc tc],
       (responseOutcome c.http_client.timeoutMs p).1,
       (responseOutcome c.http_client.timeoutMs p).2, c⟩ := by
  unfold send_email responseOutcome
  rw [hu]
  by_cases h1 : p.transportFail
  · simp [h1]
  · by_cases h2 : c.http_client.timeoutMs < p.delayMs
    · simp [h1, h2]
    · by_cases h3 : (200 ≤ p.resp.status && p.resp.status < 300 : Bool) = true
      · cases hb : p.resp.body <;> simp [h1, h2, h3, hb]
      · simp [h1, h2, h3]

/-- The requests issued under a parsing base URL: the single built request. -/
theorem send_email_requests_of_parse (c : EmailClient) (r : SubscriberEmail)
    (subj hc tc : String) (p : ProviderBehavior) (u : Url)
    (hu : parseUrl c.base_url = some u) :
    (send_email c r subj hc tc p).requests = [buildRequest c u r subj hc tc] := by
  rw [send_email_of_parse c r subj hc tc p u hu]

/-- The client after a send is the client before it, on every path. -/
theorem send_email_finalClient_eq (c : EmailClient) (r : SubscriberEmail)
    (subj hc tc : String) (p : ProviderBehavior) :
    (send_email c r subj hc tc p).finalClient = c := by
  cases hp : parseUrl c.base_url with
  | none => rw [send_email_of_parse_none c r subj hc tc p hp]
  | some u => rw [send_email_of_parse c r subj hc tc p u hp]

/-- Claim C1, as stated, is false: the scheme of the outbound request is the
scheme of the configured base URL, not necessarily HTTPS.  Against a client
configured with the plain-HTTP base URL "http://localhost:8080" (exactly how
the test suite configures it against the stand-in server), the issued request
is an HTTP request, not an HTTPS one. -/
theorem C1_counterexample :
    ((send_email exHttpClient exRecipient "Hi" "<p>hi</p>" "hi"
        exProviderOk).requests.map Request.scheme) = ["http"] ∧
    "http" ≠ "https" := by decide

/-- Claim C1 (amended): for every call send_email(recipient, subject,
html_content, text_content) whose configured base URL parses, the outbound
request built and issued is a POST to the provider's email-send endpoint
under the configured base URL — carried over that URL's scheme, so HTTPS
exactly when the configured base URL is HTTPS — whose JSON body has "from"
equal to the configured sender address, "to" equal to a one-element array
containing exactly the recipient address, "subject" equal to the subject
argument, and both the HTML and plain-text bodies attached to the same
message. -/
theorem C1_theorem (c : EmailClient) (r : SubscriberEmail)
    (subj hc tc : String) (p : ProviderBehavior) (u : Url)
    (hu : parseUrl c.base_url = some u) :
    (send_email c r subj hc tc p).requests =
      [{ method := .POST
       , baseUrl := u
       , path := "/emails"
       , headers :=
           [ ("Authorization", "Bearer " ++ c.authorization_token.expose_secret)
           , ("Content-Type", "application/json") ]
       , body := { «from» := c.sender.as_ref, «to» := [r.as_ref]
                 , subject := subj, html := some hc, text := some tc } }] := by
  rw [send_email_requests_of_parse c r subj hc tc p u hu]
  rfl

/-- Witness for C1: the amended claim evaluated at a concrete client,
recipient, subject and contents. -/
theorem C1_witness :
    (send_email exHttpClient exRecipient "Hi" "<p>hi</p>" "hi" exProviderOk).requests =
      [{ method := .POST
       , baseUrl := ⟨"http", "localhost:8080"⟩
       , path := "/emails"
       , headers :=
           [ ("Authorization", "Bearer " ++ exHttpClient.authorization_token.expose_secret)
           , ("Content-Type", "application/json") ]
       , body := { «from» := exHttpClient.sender.as_ref, «to» := [exRecipient.as_ref]
                 , subject := "Hi", html := some "<p>hi</p>", text := some "hi" } }] :=
  C1_theorem exHttpClient exRecipient "Hi" "<p>hi</p>" "hi" exProviderOk
    ⟨"http", "localhost:8080"⟩ (by decide)

/-- Claim C2: for every valid recipient, subject, HTML body and text body,
if the provider responds (within the timeout, with the transport intact) with
HTTP 200 and a well-formed acknowledgment payload, send_email returns success
Ok(()); the provider's message identifier appears only in the informational
log line and nowhere in the returned value, and no state is kept on the
client. -/
theorem C2_theorem (c : EmailClient) (r : SubscriberEmail)
    (subj hc tc : String) (p : ProviderBehavior) (u : Url) (id : String)
    (hu : parseUrl c.base_url = some u)
    (htp : p.transportFail = false)
    (hdelay : p.delayMs ≤ c.http_client.timeoutMs)
    (hstatus : p.resp.status = 200)
    (hbody : p.resp.body = .ack id) :
    (send_email c r subj hc tc p).result = .ok () ∧
    (send_email c r subj hc tc p).logs = [ackDebugLine id] ∧
    (send_email c r subj hc tc p).finalClient = c := by
  rw [send_email_of_parse c r subj hc tc p u hu]
  unfold responseOutcome
  rw [htp]
  simp only [Bool.false_eq_true, if_false]
  rw [if_neg (Nat.not_lt.mpr hdelay), hstatus, hbody]
  rw [if_pos (by decide)]
  exact ⟨rfl, rfl, trivial⟩

/-- Witness for C2: a send against a stand-in answering HTTP 200 with a
well-formed acknowledgment yields success. -/
theorem C2_witness :
    (send_email exHttpClient exRecipient "Hi" "<p>hi</p>" "hi" exProviderOk).result = .ok () ∧
    (send_email exHttpClient exRecipient "Hi" "<p>hi</p>" "hi" exProviderOk).logs =
      [ackDebugLine "b1946ac9"] ∧
    (send_email exHttpClient exRecipient "Hi" "<p>hi</p>" "hi" exProviderOk).finalClient =
      exHttpClient :=
  C2_theorem exHttpClient exRecipient "Hi" "<p>hi</p>" "hi" exProviderOk
    ⟨"http", "localhost:8080"⟩ "b1946ac9" (by decide) rfl (by decide) rfl rfl

/-- Claim C3: for every input, if the provider responds with any non-2xx
status, send_email returns a failure carrying the provider-reported status
and diagnostic detail, and only the one request was issued (no retry). -/
theorem C3_theorem (c : EmailClient) (r : SubscriberEmail)
    (subj hc tc : String) (p : ProviderBehavior) (u : Url)
    (hu : parseUrl c.base_url = some u)
    (htp : p.transportFail = false)
    (hdelay : p.delayMs ≤ c.http_client.timeoutMs)
    (hstatus : ¬(200 ≤ p.resp.status ∧ p.resp.status < 300)) :
    (send_email c r subj hc tc p).result =
      .error (.provider p.resp.status p.resp.body) ∧
    (send_email c r subj hc tc p).requests.length = 1 := by
  rw [send_email_of_parse c r subj hc tc p u hu]
  unfold responseOutcome
  rw [htp]
  simp only [Bool.false_eq_true, if_false]
  rw [if_neg (Nat.not_lt.mpr hdelay)]
  rw [if_neg (by simpa only [Bool.and_eq_true, decide_eq_true_eq] using hstatus)]
  exact ⟨rfl, rfl⟩

/-- Witness for C3: a send against a stand-in returning HTTP 500 yields a
failure carrying the diagnostic, after exactly one request. -/
theorem C3_witness :
    (send_email exHttpClient exRecipient "Hi" "<p>hi</p>" "hi" exProvider500).result =
      .error (.provider 500 (.errorDetail "internal error")) ∧
    (send_email exHttpClient exRecipient "Hi" "<p>hi</p>" "hi" exProvider500).requests.length = 1 :=
  C3_theorem exHttpClient exRecipient "Hi" "<p>hi</p>" "hi" exProvider500
    ⟨"http", "localhost:8080"⟩ (by decide) rfl (by decide) (by decide)

/-- Claim C4, as stated, is false: construction with the malformed base URL
"not a url" succeeds (the constructor stores the string unparsed), and the
malformed base URL first appears as an error result at send time. -/
theorem C4_counterexample :
    EmailClient.new "not a url" exSender exToken 200 true = .ok exBadClient ∧
    (send_email exBadClient exRecipient "Hi" "<p>hi</p>" "hi" exProviderOk).result =
      .error (.urlParse "failed to parse URL") := by decide

/-- Claim C4 (amended): an HTTP client build failure is fatal and surfaced at
construction/startup time.  A malformed base URL, however, is not detected at
construction — the constructor stores the base URL string unparsed and
succeeds — and it first appears as an error result at send time, before any
outbound network call is issued. -/
theorem C4_theorem (bu : String) (s : SubscriberEmail) (t : SecretString) (ms : Nat)
    (c : EmailClient) (r : SubscriberEmail) (subj hc tc : String) (p : ProviderBehavior)
    (hbad : parseUrl c.base_url = none) :
    EmailClient.new bu s t ms false = .panic ∧
    EmailClient.new bu s t ms true = .ok ⟨⟨ms⟩, bu, s, t⟩ ∧
    (send_email c r subj hc tc p).result = .error (.urlParse "failed to parse URL") ∧
    (send_email c r subj hc tc p).requests = [] := by
  refine ⟨rfl, rfl, ?_, ?_⟩ <;> rw [send_email_of_parse_none c r subj hc tc p hbad]

/-- Witness for C4 (amended): evaluated at the malformed base URL
"not a url". -/
theorem C4_witness :
    EmailClient.new "not a url" exSender exToken 200 false = .panic ∧
    EmailClient.new "not a url" exSender exToken 200 true =
      .ok ⟨⟨200⟩, "not a url", exSender, exToken⟩ ∧
    (send_email exBadClient exRecipient "Hi" "<p>hi</p>" "hi" exProviderOk).result =
      .error (.urlParse "failed to parse URL") ∧
    (send_email exBadClient exRecipient "Hi" "<p>hi</p>" "hi" exProviderOk).requests = [] :=
  C4_theorem "not a url" exSender exToken 200 exBadClient exRecipient
    "Hi" "<p>hi</p>" "hi" exProviderOk (by decide)

/-- Claim C5: for every input, if the provider's answer takes longer than the
timeout fixed at construction, send_email returns a failure surfaced as a
transport-class error with the timeout cause — whatever response (even HTTP
200 with a well-formed acknowledgment) the provider would eventually have
produced — and only the one aborted request was issued. -/
theorem C5_theorem (c : EmailClient) (r : SubscriberEmail)
    (subj hc tc : String) (p : ProviderBehavior) (u : Url)
    (hu : parseUrl c.base_url = some u)
    (htp : p.transportFail = false)
    (hdelay : c.http_client.timeoutMs < p.delayMs) :
    (send_email c r subj hc tc p).result = .error (.transport .timeout) ∧
    (send_email c r subj hc tc p).requests.length = 1 := by
  rw [send_email_of_parse c r subj hc tc p u hu]
  unfold responseOutcome
  rw [htp]
  simp only [Bool.false_eq_true, if_false]
  rw [if_pos hdelay]
  exact ⟨rfl, rfl⟩

/-- Witness for C5: a stand-in that delays an HTTP 200 acknowledgment by
three minutes against a 200 ms timeout yields the timeout failure. -/
theorem C5_witness :
    (send_email exHttpClient exRecipient "Hi" "<p>hi</p>" "hi" exProviderSlow).result =
      .error (.transport .timeout) ∧
    (send_email exHttpClient exRecipient "Hi" "<p>hi</p>" "hi" exProviderSlow).requests.length = 1 :=
  C5_theorem exHttpClient exRecipient "Hi" "<p>hi</p>" "hi" exProviderSlow
    ⟨"http", "localhost:8080"⟩ (by decide) rfl (by decide)

/-- Claim C6: every outbound request issued by send_email is a POST carrying
the header "Content-Type: application/json" and a non-empty Authorization
header built from the configured credential, directed at the email-send
endpoint under the configured (overridable) base URL. -/
theorem C6_theorem (c : EmailClient) (r : SubscriberEmail)
    (subj hc tc : String) (p : ProviderBehavior) (u : Url)
    (hu : parseUrl c.base_url = some u) :
    ∀ req ∈ (send_email c r subj hc tc p).requests,
      req.method = .POST ∧
      ("Content-Type", "application/json") ∈ req.headers ∧
      req.authValue = some ("Bearer " ++ c.authorization_token.expose_secret) ∧
      "Bearer " ++ c.authorization_token.expose_secret ≠ "" ∧
      req.baseUrl = u ∧
      req.path = "/emails" := by
  rw [send_email_requests_of_parse c r subj hc tc p u hu]
  intro req hreq
  rw [List.mem_singleton] at hreq
  subst hreq
  refine ⟨rfl, ?_, rfl, ?_, rfl, rfl⟩
  · exact List.mem_cons_of_mem _ (List.mem_singleton.mpr rfl)
  · intro hcontr
    have hlen := congrArg String.length hcontr
    rw [String.length_append] at hlen
    have h7 : "Bearer ".length = 7 := rfl
    have h0 : "".length = 0 := rfl
    omega

/-- Witness for C6: the request issued by a concrete send carries the JSON
content type, the non-empty bearer credential, the POST method and the
"/emails" endpoint under the configured base URL. -/
theorem C6_witness :
    (buildRequest exHttpClient ⟨"http", "localhost:8080"⟩ exRecipient "Hi" "<p>hi</p>" "hi").method = .POST ∧
    ("Content-Type", "application/json") ∈
      (buildRequest exHttpClient ⟨"http", "localhost:8080"⟩ exRecipient "Hi" "<p>hi</p>" "hi").headers ∧
    (buildRequest exHttpClient ⟨"http", "localhost:8080"⟩ exRecipient "Hi" "<p>hi</p>" "hi").authValue =
      some ("Bearer " ++ exHttpClient.authorization_token.expose_secret) ∧
    "Bearer " ++ exHttpClient.authorization_token.expose_secret ≠ "" ∧
    (buildRequest exHttpClient ⟨"http", "localhost:8080"⟩ exRecipient "Hi" "<p>hi</p>" "hi").baseUrl =
      ⟨"http", "localhost:8080"⟩ ∧
    (buildRequest exHttpClient ⟨"http", "localhost:8080"⟩ exRecipient "Hi" "<p>hi</p>" "hi").path =
      "/emails" :=
  C6_theorem exHttpClient exRecipient "Hi" "<p>hi</p>" "hi" exProviderOk
    ⟨"http", "localhost:8080"⟩ (by decide)
    (buildRequest exHttpClient ⟨"http", "localhost:8080"⟩ exRecipient "Hi" "<p>hi</p>" "hi")
    (by decide)

/-- Claim C7: every invocation of send_email issues at most one outbound
request on any path, and exactly one whenever it returns success — no retry,
fallback or additional call exists. -/
theorem C7_theorem (c : EmailClient) (r : SubscriberEmail)
    (subj hc tc : String) (p : ProviderBehavior) :
    (send_email c r subj hc tc p).requests.length ≤ 1 ∧
    ((send_email c r subj hc tc p).result = .ok () →
      (send_email c r subj hc tc p).requests.length = 1) := by
  cases hp : parseUrl c.base_url with
  | none =>
    rw [send_email_of_parse_none c r subj hc tc p hp]
    exact ⟨Nat.zero_le 1, fun hcontr => nomatch hcontr⟩
  | some u =>
    rw [send_email_of_parse c r subj hc tc p u hp]
    exact ⟨Nat.le_refl 1, fun _ => rfl⟩

/-- Witness for C7: a concrete successful send issued exactly one request. -/
theorem C7_witness :
    (send_email exHttpClient exRecipient "Hi" "<p>hi</p>" "hi" exProviderOk).requests.length = 1 :=
  (C7_theorem exHttpClient exRecipient "Hi" "<p>hi</p>" "hi" exProviderOk).2 (by decide)

/-- Claim C8: send_email mutates no local state — after any call, succeeding
or failing, every field of the EmailClient (HTTP client handle, base URL,
sender address, authorization credential) is unchanged. -/
theorem C8_theorem (c : EmailClient) (r : SubscriberEmail)
    (subj hc tc : String) (p : ProviderBehavior) :
    (send_email c r subj hc tc p).finalClient.http_client = c.http_client ∧
    (send_email c r subj hc tc p).finalClient.base_url = c.base_url ∧
    (send_email c r subj hc tc p).finalClient.sender = c.sender ∧
    (send_email c r subj hc tc p).finalClient.authorization_token = c.authorization_token ∧
    (send_email c r subj hc tc p).finalClient = c := by
  rw [send_email_finalClient_eq c r subj hc tc p]
  exact ⟨rfl, rfl, rfl, rfl, rfl⟩

/-- Claim C9: the credential's default formatting reveals nothing (it is a
constant, independent of the raw value), and the raw value is exposed in the
observable behavior of send_email at exactly one point: the Authorization
header built at request construction.  Two clients differing only in their
credential produce the same result, the same logs and the same requests once
the Authorization header is stripped; where the raw value does appear, it is
exactly the bearer header of each issued request. -/
theorem C9_theorem (c : EmailClient) (t1 t2 : SecretString) (r : SubscriberEmail)
    (subj hc tc : String) (p : ProviderBehavior) :
    SecretString.debugFmt t1 = SecretString.debugFmt t2 ∧
    (send_email { c with authorization_token := t1 } r subj hc tc p).result =
      (send_email { c with authorization_token := t2 } r subj hc tc p).result ∧
    (send_email { c with authorization_token := t1 } r subj hc tc p).logs =
      (send_email { c with authorization_token := t2 } r subj hc tc p).logs ∧
    (send_email { c with authorization_token := t1 } r subj hc tc p).requests.map Request.stripAuth =
      (send_email { c with authorization_token := t2 } r subj hc tc p).requests.map Request.stripAuth ∧
    (send_email { c with authorization_token := t1 } r subj hc tc p).requests.map Request.authValue =
      List.replicate
        (send_email { c with authorization_token := t1 } r subj hc tc p).requests.length
        (some ("Bearer " ++ t1.expose_secret)) := by
  refine ⟨rfl, ?_⟩
  cases hp : parseUrl c.base_url with
  | none =>
    rw [send_email_of_parse_none { c with authorization_token := t1 } r subj hc tc p hp,
        send_email_of_parse_none { c with authorization_token := t2 } r subj hc tc p hp]
    exact ⟨rfl, rfl, rfl, rfl⟩
  | some u =>
    rw [send_email_of_parse { c with authorization_token := t1 } r subj hc tc p u hp,
        send_email_of_parse { c with authorization_token := t2 } r subj hc tc p u hp]
    exact ⟨rfl, rfl, rfl, rfl⟩

/-- Claim C10: if the stored base URL string fails to parse, send_email
returns the URL-parse error with no request issued and no log emitted; the
outcome is this fixed error value, so the same inputs fail identically on
every call. -/
theorem C10_theorem (c : EmailClient) (r : SubscriberEmail)
    (subj hc tc : String) (p : ProviderBehavior)
    (hbad : parseUrl c.base_url = none) :
    (send_email c r subj hc tc p).result = .error (.urlParse "failed to parse URL") ∧
    (send_email c r subj hc tc p).requests = [] ∧
    (send_email c r subj hc tc p).logs = [] := by
  rw [send_email_of_parse_none c r subj hc tc p hbad]
  exact ⟨rfl, rfl, rfl⟩

/-- Witness for C10: the client whose base URL is "not a url". -/
theorem C10_witness :
    (send_email exBadClient exRecipient "Hello" "<p>x</p>" "x" exProvider500).result =
      .error (.urlParse "failed to parse URL") ∧
    (send_email exBadClient exRecipient "Hello" "<p>x</p>" "x" exProvider500).requests = [] ∧
    (send_email exBadClient exRecipient "Hello" "<p>x</p>" "x" exProvider500).logs = [] :=
  C10_theorem exBadClient exRecipient "Hello" "<p>x</p>" "x" exProvider500 (by decide)

end Zero2Prod
